/-
  Verification of the xdgm monitor (src/monitor.js): binary telemetry
  decoder, node registry, per-node state machine and alert throttling.

  Shallow embedding conventions:
  * A Node.js Buffer is a `List Nat` of bytes.
  * `buffer.readUInt32LE(off)` throws a RangeError when `off + 4 > length`;
    a throwing read is modelled as `none`, a successful read as `some v`.
  * IEEE-754 doubles (`readDoubleLE`) are modelled by their raw 64-bit
    little-endian bit pattern (a `Nat`): no verified claim depends on the
    numeric value of a double, only on the bounds check and on which bytes
    are consumed.
  * JavaScript BigInt arithmetic in `readUInt64LE` is exact, as is `Nat`.
    (The later `Number(...)` conversion is lossy above 2^53; no claim
    compares 64-bit fields numerically, so fields are kept exact.)
  * Buffer.slice never throws (it clamps), hence slices are total.
  * The hex strings the code stores for `ledger_hash` / `node_public_key`
    are modelled as the underlying byte lists (hex encoding is injective,
    so map keys compare identically).
-/
import Mathlib

namespace Xdgm

/-! ### Constants (src/monitor.js lines 7-18) -/

def SERVER_INFO_MAGIC : Nat := 0x4D474458

def SERVER_INFO_VERSION : Nat := 1

def SERVER_TIMEOUT : Nat := 2000

def AMENDMENT_BLOCKED : Nat := 1 <<< 0

def UNL_BLOCKED : Nat := 1 <<< 1

def AMENDMENT_WARNED : Nat := 1 <<< 2

def NOT_SYNCED : Nat := 1 <<< 3

def HEADER_SIZE : Nat := 708

/-! ### Buffer read primitives (src/monitor.js lines 25-33) -/

/-- Little-endian 32-bit value of the four bytes at `off` (total form;
out-of-range bytes read as 0, only used under a bounds guard). -/
def u32 (buf : List Nat) (off : Nat) : Nat :=
  buf.getD off 0 + 256 * buf.getD (off + 1) 0 + 65536 * buf.getD (off + 2) 0 +
    16777216 * buf.getD (off + 3) 0

/-- `buffer.readUInt32LE(off)`: bounds-checked little-endian read;
`none` models the RangeError Node throws when fewer than 4 bytes remain. -/
def readUInt32LE (buf : List Nat) (off : Nat) : Option Nat :=
  if off + 4 ≤ buf.length then some (u32 buf off) else none

/-- `readUInt64LE` from the source: two 32-bit reads, value
`high * 0x100000000 + low` (BigInt, exact). -/
def readUInt64LE (buf : List Nat) (off : Nat) : Option Nat :=
  match readUInt32LE buf off with
  | none => none
  | some low =>
  match readUInt32LE buf (off + 4) with
  | none => none
  | some high => some (4294967296 * high + low)

/-- Total form of the 64-bit read (same value under the guards). -/
def u64 (buf : List Nat) (off : Nat) : Nat :=
  4294967296 * u32 buf (off + 4) + u32 buf off

/-- `buffer.readDoubleLE(off)`: the double is modelled by its raw 64-bit
bit pattern; the bounds check (8 bytes) matches Node. -/
def readDoubleLE (buf : List Nat) (off : Nat) : Option Nat :=
  if off + 8 ≤ buf.length then some (u64 buf off) else none

/-- `buffer.slice(a, b)`: clamping, never throws. -/
def sliceBytes (buf : List Nat) (a b : Nat) : List Nat :=
  (buf.drop a).take (b - a)

/-- Strip trailing NUL bytes, the model of `.replace(/\0+$/, '')` applied
to a byte string. -/
def trimTrailingZeros (l : List Nat) : List Nat :=
  (l.reverse.dropWhile (· == 0)).reverse

/-! ### Decoded header (src/monitor.js parseServerInfoHeader, lines 88-196) -/

structure RateStats where
  rate_1m : Nat
  rate_5m : Nat
  rate_1h : Nat
  rate_24h : Nat
  deriving Repr, DecidableEq

structure Rates where
  network_in : RateStats
  network_out : RateStats
  disk_read : RateStats
  disk_write : RateStats
  deriving Repr, DecidableEq

structure Header where
  magic : Nat
  version : Nat
  network_id : Nat
  server_state : Nat
  peer_count : Nat
  node_size : Nat
  cpu_cores : Nat
  ledger_range_count : Nat
  warning_flags : Nat
  timestamp : Nat
  uptime : Nat
  io_latency_us : Nat
  validation_quorum : Nat
  fetch_pack_size : Nat
  proposer_count : Nat
  converge_time_ms : Nat
  load_factor : Nat
  load_base : Nat
  reserve_base : Nat
  reserve_inc : Nat
  ledger_seq : Nat
  ledger_hash : List Nat
  node_public_key : List Nat
  version_string : List Nat
  process_memory_pages : Nat
  system_memory_total : Nat
  system_memory_free : Nat
  system_memory_used : Nat
  system_disk_total : Nat
  system_disk_free : Nat
  system_disk_used : Nat
  io_wait_time : Nat
  load_avg_1min : Nat
  load_avg_5min : Nat
  load_avg_15min : Nat
  state_transitions : List Nat
  state_durations : List Nat
  initial_sync_us : Nat
  rates : Rates
  deriving Repr, DecidableEq

/-- `parseServerInfoHeader(buffer)` translated read for read, in source
order.  Each read that would raise in Node makes the whole result `none`
(the thrown RangeError propagates to the caller). -/
def parseServerInfoHeader (buf : List Nat) : Option Header :=
  match readUInt32LE buf 0 with
  | none => none
  | some magic =>
  match readUInt32LE buf 4 with
  | none => none
  | some version =>
  match readUInt32LE buf 8 with
  | none => none
  | some network_id =>
  match readUInt32LE buf 12 with
  | none => none
  | some server_state =>
  match readUInt32LE buf 16 with
  | none => none
  | some peer_count =>
  match readUInt32LE buf 20 with
  | none => none
  | some node_size =>
  match readUInt32LE buf 24 with
  | none => none
  | some cpu_cores =>
  match readUInt32LE buf 28 with
  | none => none
  | some ledger_range_count =>
  match readUInt32LE buf 32 with
  | none => none
  | some warning_flags =>
  -- padding_1 at offset 36
  match readUInt64LE buf 40 with
  | none => none
  | some timestamp =>
  match readUInt64LE buf 48 with
  | none => none
  | some uptime =>
  match readUInt64LE buf 56 with
  | none => none
  | some io_latency_us =>
  match readUInt64LE buf 64 with
  | none => none
  | some validation_quorum =>
  match readUInt64LE buf 72 with
  | none => none
  | some fetch_pack_size =>
  match readUInt64LE buf 80 with
  | none => none
  | some proposer_count =>
  match readUInt64LE buf 88 with
  | none => none
  | some converge_time_ms =>
  match readUInt64LE buf 96 with
  | none => none
  | some load_factor =>
  match readUInt64LE buf 104 with
  | none => none
  | some load_base =>
  match readUInt64LE buf 112 with
  | none => none
  | some reserve_base =>
  match readUInt64LE buf 120 with
  | none => none
  | some reserve_inc =>
  match readUInt64LE buf 128 with
  | none => none
  | some ledger_seq =>
  let ledger_hash := sliceBytes buf 136 168
  let node_public_key := sliceBytes buf 168 201
  -- 7 bytes padding, then the 32-byte version string at 201
  let version_string := trimTrailingZeros (sliceBytes buf 201 233)
  match readUInt64LE buf 240 with
  | none => none
  | some process_memory_pages =>
  match readUInt64LE buf 248 with
  | none => none
  | some system_memory_total =>
  match readUInt64LE buf 256 with
  | none => none
  | some system_memory_free =>
  match readUInt64LE buf 264 with
  | none => none
  | some system_memory_used =>
  match readUInt64LE buf 272 with
  | none => none
  | some system_disk_total =>
  match readUInt64LE buf 280 with
  | none => none
  | some system_disk_free =>
  match readUInt64LE buf 288 with
  | none => none
  | some system_disk_used =>
  match readUInt64LE buf 296 with
  | none => none
  | some io_wait_time =>
  match readDoubleLE buf 304 with
  | none => none
  | some load_avg_1min =>
  match readDoubleLE buf 312 with
  | none => none
  | some load_avg_5min =>
  match readDoubleLE buf 320 with
  | none => none
  | some load_avg_15min =>
  match readUInt64LE buf 328 with
  | none => none
  | some st0 =>
  match readUInt64LE buf 336 with
  | none => none
  | some st1 =>
  match readUInt64LE buf 344 with
  | none => none
  | some st2 =>
  match readUInt64LE buf 352 with
  | none => none
  | some st3 =>
  match readUInt64LE buf 360 with
  | none => none
  | some st4 =>
  match readUInt64LE buf 368 with
  | none => none
  | some sd0 =>
  match readUInt64LE buf 376 with
  | none => none
  | some sd1 =>
  match readUInt64LE buf 384 with
  | none => none
  | some sd2 =>
  match readUInt64LE buf 392 with
  | none => none
  | some sd3 =>
  match readUInt64LE buf 400 with
  | none => none
  | some sd4 =>
  match readUInt64LE buf 408 with
  | none => none
  | some initial_sync_us =>
  match readDoubleLE buf 416 with
  | none => none
  | some ni_1m =>
  match readDoubleLE buf 424 with
  | none => none
  | some ni_5m =>
  match readDoubleLE buf 432 with
  | none => none
  | some ni_1h =>
  match readDoubleLE buf 440 with
  | none => none
  | some ni_24h =>
  match readDoubleLE buf 448 with
  | none => none
  | some no_1m =>
  match readDoubleLE buf 456 with
  | none => none
  | some no_5m =>
  match readDoubleLE buf 464 with
  | none => none
  | some no_1h =>
  match readDoubleLE buf 472 with
  | none => none
  | some no_24h =>
  match readDoubleLE buf 480 with
  | none => none
  | some dr_1m =>
  match readDoubleLE buf 488 with
  | none => none
  | some dr_5m =>
  match readDoubleLE buf 496 with
  | none => none
  | some dr_1h =>
  match readDoubleLE buf 504 with
  | none => none
  | some dr_24h =>
  match readDoubleLE buf 512 with
  | none => none
  | some dw_1m =>
  match readDoubleLE buf 520 with
  | none => none
  | some dw_5m =>
  match readDoubleLE buf 528 with
  | none => none
  | some dw_1h =>
  match readDoubleLE buf 536 with
  | none => none
  | some dw_24h =>
  some
    { magic := magic
      version := version
      network_id := network_id
      server_state := server_state
      peer_count := peer_count
      node_size := node_size
      cpu_cores := cpu_cores
      ledger_range_count := ledger_range_count
      warning_flags := warning_flags
      timestamp := timestamp
      uptime := uptime
      io_latency_us := io_latency_us
      validation_quorum := validation_quorum
      fetch_pack_size := fetch_pack_size
      proposer_count := proposer_count
      converge_time_ms := converge_time_ms
      load_factor := load_factor
      load_base := load_base
      reserve_base := reserve_base
      reserve_inc := reserve_inc
      ledger_seq := ledger_seq
      ledger_hash := ledger_hash
      node_public_key := node_public_key
      version_string := version_string
      process_memory_pages := process_memory_pages
      system_memory_total := system_memory_total
      system_memory_free := system_memory_free
      system_memory_used := system_memory_used
      system_disk_total := system_disk_total
      system_disk_free := system_disk_free
      system_disk_used := system_disk_used
      io_wait_time := io_wait_time
      load_avg_1min := load_avg_1min
      load_avg_5min := load_avg_5min
      load_avg_15min := load_avg_15min
      state_transitions := [st0, st1, st2, st3, st4]
      state_durations := [sd0, sd1, sd2, sd3, sd4]
      initial_sync_us := initial_sync_us
      rates :=
        { network_in := { rate_1m := ni_1m, rate_5m := ni_5m, rate_1h := ni_1h, rate_24h := ni_24h }
          network_out := { rate_1m := no_1m, rate_5m := no_5m, rate_1h := no_1h, rate_24h := no_24h }
          disk_read := { rate_1m := dr_1m, rate_5m := dr_5m, rate_1h := dr_1h, rate_24h := dr_24h }
          disk_write := { rate_1m := dw_1m, rate_5m := dw_5m, rate_1h := dw_1h, rate_24h := dw_24h } } }

/-- The header a ≥ 544-byte buffer decodes to, field by field at the
source's fixed offsets (total description used to state completeness). -/
def mkHeader (buf : List Nat) : Header :=
  { magic := u32 buf 0
    version := u32 buf 4
    network_id := u32 buf 8
    server_state := u32 buf 12
    peer_count := u32 buf 16
    node_size := u32 buf 20
    cpu_cores := u32 buf 24
    ledger_range_count := u32 buf 28
    warning_flags := u32 buf 32
    timestamp := u64 buf 40
    uptime := u64 buf 48
    io_latency_us := u64 buf 56
    validation_quorum := u64 buf 64
    fetch_pack_size := u64 buf 72
    proposer_count := u64 buf 80
    converge_time_ms := u64 buf 88
    load_factor := u64 buf 96
    load_base := u64 buf 104
    reserve_base := u64 buf 112
    reserve_inc := u64 buf 120
    ledger_seq := u64 buf 128
    ledger_hash := sliceBytes buf 136 168
    node_public_key := sliceBytes buf 168 201
    version_string := trimTrailingZeros (sliceBytes buf 201 233)
    process_memory_pages := u64 buf 240
    system_memory_total := u64 buf 248
    system_memory_free := u64 buf 256
    system_memory_used := u64 buf 264
    system_disk_total := u64 buf 272
    system_disk_free := u64 buf 280
    system_disk_used := u64 buf 288
    io_wait_time := u64 buf 296
    load_avg_1min := u64 buf 304
    load_avg_5min := u64 buf 312
    load_avg_15min := u64 buf 320
    state_transitions := [u64 buf 328, u64 buf 336, u64 buf 344, u64 buf 352, u64 buf 360]
    state_durations := [u64 buf 368, u64 buf 376, u64 buf 384, u64 buf 392, u64 buf 400]
    initial_sync_us := u64 buf 408
    rates :=
      { network_in :=
          { rate_1m := u64 buf 416, rate_5m := u64 buf 424, rate_1h := u64 buf 432, rate_24h := u64 buf 440 }
        network_out :=
          { rate_1m := u64 buf 448, rate_5m := u64 buf 456, rate_1h := u64 buf 464, rate_24h := u64 buf 472 }
        disk_read :=
          { rate_1m := u64 buf 480, rate_5m := u64 buf 488, rate_1h := u64 buf 496, rate_24h := u64 buf 504 }
        disk_write :=
          { rate_1m := u64 buf 512, rate_5m := u64 buf 520, rate_1h := u64 buf 528, rate_24h := u64 buf 536 } } }

/-- Every read `parseServerInfoHeader` performs ends at or before byte 544,
so a buffer of at least 544 bytes decodes completely. -/
theorem parse_complete (buf : List Nat) (hlen : 544 ≤ buf.length) :
    parseServerInfoHeader buf = some (mkHeader buf) := by
  have h32 : ∀ off, off + 4 ≤ 544 → readUInt32LE buf off = some (u32 buf off) :=
    fun off h => if_pos (by omega)
  have h64 : ∀ off, off + 8 ≤ 544 → readUInt64LE buf off = some (u64 buf off) := by
    intro off h
    simp [readUInt64LE, readUInt32LE, u64,
      show off + 4 ≤ buf.length by omega, show off + 4 + 4 ≤ buf.length by omega]
  have hdd : ∀ off, off + 8 ≤ 544 → readDoubleLE buf off = some (u64 buf off) :=
    fun off h => if_pos (by omega)
  simp [parseServerInfoHeader, mkHeader, h32, h64, hdd]

/-- A successful decode needs at least 544 bytes: the last fixed-offset
read (the double at offset 536) requires them. -/
theorem parse_length_bound (buf : List Nat) (h : Header)
    (hp : parseServerInfoHeader buf = some h) : 544 ≤ buf.length := by
  by_contra hlt
  push_neg at hlt
  unfold parseServerInfoHeader at hp
  repeat (first | exact Option.noConfusion hp | split at hp)
  simp only [readUInt32LE, readUInt64LE, readDoubleLE, Option.ite_none_right_eq_some] at *
  omega

/-- On any buffer shorter than 544 bytes `parseServerInfoHeader` fails
(the model of the RangeError Node raises on the first out-of-range read). -/
theorem parse_short (buf : List Nat) (hlt : buf.length < 544) :
    parseServerInfoHeader buf = none := by
  cases hp : parseServerInfoHeader buf with
  | none => rfl
  | some h => exact absurd (parse_length_bound buf h hp) (by omega)

/-! ### Variable trailing sections (src/monitor.js lines 58-85, 241-257) -/

/-- A ledger range `{start, end}`; the source field `end` is a reserved
word in Lean and is called `stop` here. -/
structure LedgerRange where
  start : Nat
  stop : Nat
  deriving Repr, DecidableEq

/-- The loop of `parseLedgerRanges`: pair `i` sits at `HEADER_SIZE + 8*i`;
a failing read is the RangeError that aborts the whole loop, discarding
pairs already collected. -/
def ledgerRangesLoop (buf : List Nat) (i : Nat) : Nat → Option (List LedgerRange)
  | 0 => some []
  | k + 1 =>
    match readUInt32LE buf (HEADER_SIZE + i * 8), readUInt32LE buf (HEADER_SIZE + i * 8 + 4) with
    | some s, some e =>
      match ledgerRangesLoop buf (i + 1) k with
      | some rest => some ({ start := s, stop := e } :: rest)
      | none => none
    | _, _ => none

/-- `parseLedgerRanges(buffer, header)`: reads `ledger_range_count` pairs
after the 708-byte header area; the catch turns any overrun into `[]`. -/
def parseLedgerRanges (buf : List Nat) (header : Header) : List LedgerRange :=
  (ledgerRangesLoop buf 0 header.ledger_range_count).getD []

structure ObjCount where
  name : List Nat
  count : Nat
  deriving Repr, DecidableEq

/-- The loop of `parseObjectCounts`: record `i` is 56 name bytes plus an
8-byte count at `base + 64*i`; all-zero names are dropped. -/
def objectCountsLoop (buf : List Nat) (base i : Nat) : Nat → Option (List ObjCount)
  | 0 => some []
  | k + 1 =>
    let off := base + i * 64
    let name := trimTrailingZeros (sliceBytes buf off (off + 56))
    match readUInt64LE buf (off + 56) with
    | none => none
    | some count =>
      match objectCountsLoop buf base (i + 1) k with
      | none => none
      | some rest => some (if 0 < name.length then { name := name, count := count } :: rest else rest)

/-- `parseObjectCounts(buffer, header)`: the record count is derived from
the remaining buffer length (integer floor; a negative remainder in JS
gives no iterations, as does truncated `Nat` subtraction). -/
def parseObjectCounts (buf : List Nat) (header : Header) : List ObjCount :=
  let objectCountOffset := HEADER_SIZE + header.ledger_range_count * 8
  let remainingBytes := buf.length - objectCountOffset
  let numObjects := remainingBytes / 64
  (objectCountsLoop buf objectCountOffset 0 numObjects).getD []

structure DebugCounters where
  dbKBTotal : Nat
  dbKBLedger : Nat
  dbKBTransaction : Nat
  localTxCount : Nat
  writeLoad : Nat
  historicalPerMinute : Nat
  sleHitRate : Nat
  ledgerHitRate : Nat
  alSize : Nat
  alHitRate : Nat
  fullbelowSize : Nat
  treenodeCacheSize : Nat
  treenodeTrackSize : Nat
  shardFullbelowSize : Nat
  shardTreenodeCacheSize : Nat
  shardTreenodeTrackSize : Nat
  shardWriteLoad : Nat
  shardNodeWrites : Nat
  shardNodeReadsTotal : Nat
  shardNodeReadsHit : Nat
  shardNodeWrittenBytes : Nat
  shardNodeReadBytes : Nat
  nodeWriteCount : Nat
  nodeWriteSize : Nat
  nodeFetchCount : Nat
  nodeFetchHitCount : Nat
  nodeFetchSize : Nat
  deriving Repr, DecidableEq

/-- `parseDebugCounters(buffer)`: fixed block at offset 544; any read
error is caught in the source and yields `null`, modelled as `none`. -/
def parseDebugCounters (buf : List Nat) : Option DebugCounters :=
  match readUInt64LE buf 544 with
  | none => none
  | some dbKBTotal =>
  match readUInt64LE buf 552 with
  | none => none
  | some dbKBLedger =>
  match readUInt64LE buf 560 with
  | none => none
  | some dbKBTransaction =>
  match readUInt64LE buf 568 with
  | none => none
  | some localTxCount =>
  match readUInt32LE buf 576 with
  | none => none
  | some writeLoad =>
  match readUInt32LE buf 580 with
  | none => none
  | some historicalPerMinute =>
  match readUInt32LE buf 584 with
  | none => none
  | some sleHitRate =>
  match readUInt32LE buf 588 with
  | none => none
  | some ledgerHitRate =>
  match readUInt32LE buf 592 with
  | none => none
  | some alSize =>
  match readUInt32LE buf 596 with
  | none => none
  | some alHitRate =>
  match readUInt32LE buf 600 with
  | none => none
  | some fullbelowSize =>
  match readUInt32LE buf 604 with
  | none => none
  | some treenodeCacheSize =>
  match readUInt32LE buf 608 with
  | none => none
  | some treenodeTrackSize =>
  match readUInt32LE buf 612 with
  | none => none
  | some shardFullbelowSize =>
  match readUInt32LE buf 616 with
  | none => none
  | some shardTreenodeCacheSize =>
  match readUInt32LE buf 620 with
  | none => none
  | some shardTreenodeTrackSize =>
  match readUInt32LE buf 624 with
  | none => none
  | some shardWriteLoad =>
  match readUInt64LE buf 628 with
  | none => none
  | some shardNodeWrites =>
  match readUInt64LE buf 636 with
  | none => none
  | some shardNodeReadsTotal =>
  match readUInt64LE buf 644 with
  | none => none
  | some shardNodeReadsHit =>
  match readUInt64LE buf 652 with
  | none => none
  | some shardNodeWrittenBytes =>
  match readUInt64LE buf 660 with
  | none => none
  | some shardNodeReadBytes =>
  match readUInt64LE buf 668 with
  | none => none
  | some nodeWriteCount =>
  match readUInt64LE buf 676 with
  | none => none
  | some nodeWriteSize =>
  match readUInt64LE buf 684 with
  | none => none
  | some nodeFetchCount =>
  match readUInt64LE buf 692 with
  | none => none
  | some nodeFetchHitCount =>
  match readUInt64LE buf 700 with
  | none => none
  | some nodeFetchSize =>
  some
    { dbKBTotal := dbKBTotal
      dbKBLedger := dbKBLedger
      dbKBTransaction := dbKBTransaction
      localTxCount := localTxCount
      writeLoad := writeLoad
      historicalPerMinute := historicalPerMinute
      sleHitRate := sleHitRate
      ledgerHitRate := ledgerHitRate
      alSize := alSize
      alHitRate := alHitRate
      fullbelowSize := fullbelowSize
      treenodeCacheSize := treenodeCacheSize
      treenodeTrackSize := treenodeTrackSize
      shardFullbelowSize := shardFullbelowSize
      shardTreenodeCacheSize := shardTreenodeCacheSize
      shardTreenodeTrackSize := shardTreenodeTrackSize
      shardWriteLoad := shardWriteLoad
      shardNodeWrites := shardNodeWrites
      shardNodeReadsTotal := shardNodeReadsTotal
      shardNodeReadsHit := shardNodeReadsHit
      shardNodeWrittenBytes := shardNodeWrittenBytes
      shardNodeReadBytes := shardNodeReadBytes
      nodeWriteCount := nodeWriteCount
      nodeWriteSize := nodeWriteSize
      nodeFetchCount := nodeFetchCount
      nodeFetchHitCount := nodeFetchHitCount
      nodeFetchSize := nodeFetchSize }


/-! ### Duration formatting (src/monitor.js lines 390-411) -/

/-- `(x).toFixed(1)` for the exact rational `num / den`, rendered with one
decimal digit.  Exact round-half-up rounding stands in for the IEEE-754
double rounding of the source; the claims settled here depend only on the
shape of the output (it always contains a decimal point), on which the two
agree everywhere. -/
def toFixed1 (num den : Nat) : String :=
  let scaled := (num * 10 + den / 2) / den
  toString (scaled / 10) ++ "." ++ toString (scaled % 10)

/-- The descending unit table of `formatDuration`. -/
def durationUnits : List (Nat × String) :=
  [(31536000000000, "year"), (2592000000000, "month"), (86400000000, "day"),
   (3600000000, "hour"), (60000000, "minute"), (1000000, "second"),
   (1000, "ms"), (1, "μs")]

/-- The for-loop of `formatDuration`: first unit whose divisor the value
reaches wins; the suffix *s* is appended unless the rendered value is the
string 1 (which `toFixed(1)` in fact never produces). -/
def formatDurationLoop (microseconds : Nat) : List (Nat × String) → Option String
  | [] => none
  | (divisor, unit) :: rest =>
    if divisor ≤ microseconds then
      let value := toFixed1 microseconds divisor
      some (value ++ " " ++ unit ++ (if value ≠ "1" then "s" else ""))
    else formatDurationLoop microseconds rest

/-- `formatDuration(microseconds)`; JS returns `undefined` when the loop
finds no unit, modelled as `none` (unreachable for a positive integer). -/
def formatDuration (microseconds : Nat) : Option String :=
  if microseconds = 0 then some "0 μs" else formatDurationLoop microseconds durationUnits

/-! ### ServerCard (src/monitor.js lines 541-681) -/

structure RInfo where
  address : String
  port : Nat
  deriving Repr, DecidableEq

/-- The mutable fields of a `ServerCard` that carry monitor state (the
blessed box, its colors and rendered text are display-only and omitted).
`slot` is the card index the constructor receives. -/
structure Card where
  slot : Nat
  header : Option Header
  rinfo : Option RInfo
  ranges : List LedgerRange
  objectCounts : List ObjCount
  debugCounters : Option DebugCounters
  lastUpdate : Nat
  lastAwolAlert : Option Nat
  lastWarningTime : Option Nat
  isAwol : Bool
  deriving Repr, DecidableEq

/-- `new ServerCard(index)`: `lastUpdate` ends up 0 (set to `Date.now()`
then overwritten with 0 at the end of the constructor), everything else
unset. -/
def newCard (slot : Nat) : Card :=
  { slot := slot, header := none, rinfo := none, ranges := [], objectCounts := [],
    debugCounters := none, lastUpdate := 0, lastAwolAlert := none, lastWarningTime := none,
    isAwol := false }

/-- `ServerCard.getWarnings(header)`: a null header yields no warnings;
otherwise one fixed-order entry per set low bit. -/
def getWarnings : Option Header → List String
  | none => []
  | some header =>
    (if header.warning_flags &&& AMENDMENT_BLOCKED ≠ 0 then ["Amendment Blocked"] else []) ++
    (if header.warning_flags &&& UNL_BLOCKED ≠ 0 then ["UNL Blocked"] else []) ++
    (if header.warning_flags &&& AMENDMENT_WARNED ≠ 0 then ["Amendment Warned"] else []) ++
    (if header.warning_flags &&& NOT_SYNCED ≠ 0 then ["NOT SYNCED"] else [])

/-- JS falsiness of the stored timestamps: `undefined` (`none`) and `0`
are falsy, any other number truthy. -/
def jsFalsy : Option Nat → Bool
  | none => true
  | some t => t == 0

/-- `ServerCard.updateDisplay()` restricted to its observable state: the
pair is the updated card and the alert messages appended (the rendered
box content and border colors are display-only).  `now` is `Date.now()`.
In JS `now - t > 300000` on a `Nat` model: a negative difference is below
the threshold either way, so truncated subtraction is faithful. -/
def updateDisplay (c : Card) (now : Nat) : Card × List String :=
  match c.header, c.rinfo with
  | some header, some _ =>
    let warnings := getWarnings (some header)
    let isAwol := decide (SERVER_TIMEOUT < now - c.lastUpdate)
    let c := { c with isAwol := isAwol }
    if isAwol then
      if jsFalsy c.lastAwolAlert || decide (300000 < now - c.lastAwolAlert.getD 0) then
        ({ c with lastAwolAlert := some now }, ["Server is AWOL"])
      else (c, [])
    else if 0 < warnings.length then
      if jsFalsy c.lastWarningTime || decide (300000 < now - c.lastWarningTime.getD 0) then
        ({ c with lastWarningTime := some now }, warnings)
      else (c, [])
    else (c, [])
  | _, _ => (c, [])

/-- The alert block at the top of `ServerCard.update`: `hadWarnings` is a
*boolean*, which JS coerces to 0 or 1 for the `>` comparison with the new
warning count; when the branch fires, *every* current warning is alerted. -/
def updateNewWarningAlerts (oldHeader : Option Header) (header : Header) : List String :=
  let isFirstUpdate := oldHeader.isNone
  let hadWarnings : Nat :=
    match oldHeader with
    | some oh => if 0 < (getWarnings (some oh)).length then 1 else 0
    | none => 0
  let currentWarnings := getWarnings (some header)
  if !isFirstUpdate && decide (hadWarnings < currentWarnings.length) then currentWarnings
  else []

/-- `ServerCard.update(header, rinfo, ranges, objectCounts, debugCounters)`:
stores the snapshot, resets `lastUpdate`, emits the new-warning alerts,
then runs `updateDisplay` (which may emit further throttled alerts). -/
def cardUpdate (c : Card) (header : Header) (rinfo : RInfo) (ranges : List LedgerRange)
    (objectCounts : List ObjCount) (debugCounters : Option DebugCounters) (now : Nat) :
    Card × List String :=
  let alertsNew := updateNewWarningAlerts c.header header
  let c := { c with lastUpdate := now, header := some header, rinfo := some rinfo,
                    ranges := ranges, objectCounts := objectCounts,
                    debugCounters := debugCounters }
  let disp := updateDisplay c now
  (disp.1, alertsNew ++ disp.2)

/-! ### Registry and message handler (src/monitor.js lines 519-527, 916-976) -/

/-- `addAlert`: unshift, then drop the oldest entry past 100.  The
timestamp / node-id prefix of the rendered string is display formatting
and is omitted from the model; entries are the alert messages. -/
def addAlert (alerts : List String) (message : String) : List String :=
  let a := message :: alerts
  if 100 < a.length then a.take 100 else a

/-- Global monitor state: the `servers` map (insertion-ordered, keyed by
the raw `node_public_key` bytes), the `nextSlot` counter and the alert
log. -/
structure MonState where
  servers : List (List Nat × Card)
  nextSlot : Nat
  alerts : List String
  deriving Repr, DecidableEq

def initState : MonState :=
  { servers := [], nextSlot := 0, alerts := [] }

/-- `getNextSlot()`: `none` once 20 slots are handed out; otherwise the
current counter, post-incremented. -/
def getNextSlot (nextSlot : Nat) : Option Nat × Nat :=
  if 20 ≤ nextSlot then (none, nextSlot) else (some nextSlot, nextSlot + 1)

/-- `servers.get(key)` on the insertion-ordered map. -/
def findCard : List (List Nat × Card) → List Nat → Option Card
  | [], _ => none
  | (k, c) :: rest, key => if k = key then some c else findCard rest key

/-- `servers.set(key, card)`: replaces in place when the key exists,
appends at the end otherwise (JS `Map` preserves insertion order). -/
def setCard : List (List Nat × Card) → List Nat → Card → List (List Nat × Card)
  | [], key, c => [(key, c)]
  | (k, c0) :: rest, key, c =>
    if k = key then (key, c) :: rest else (k, c0) :: setCard rest key c

/-- The body of the message handler after a successful
`parseServerInfoHeader`: register the identity if unseen and a slot is
free, then update the card (if any) with the packet. -/
def handleParsed (st : MonState) (header : Header) (rinfo : RInfo)
    (ranges : List LedgerRange) (objectCounts : List ObjCount)
    (debugCounters : Option DebugCounters) (now : Nat) : MonState :=
  let serverKey := header.node_public_key
  let st :=
    if (findCard st.servers serverKey).isNone then
      match getNextSlot st.nextSlot with
      | (some slot, n) =>
        { st with servers := st.servers ++ [(serverKey, newCard slot)], nextSlot := n }
      | (none, n) => { st with nextSlot := n }
    else st
  match findCard st.servers serverKey with
  | some card =>
    let upd := cardUpdate card header rinfo ranges objectCounts debugCounters now
    { st with servers := setCard st.servers serverKey upd.1,
              alerts := upd.2.foldl addAlert st.alerts }
  | none => st

/-- `server.on('message')`: a throwing decode is caught and logged, the
packet dropped; otherwise the variable sections are parsed (each catching
internally) and the registry updated. -/
def processMessage (st : MonState) (buf : List Nat) (rinfo : RInfo) (now : Nat) : MonState :=
  match parseServerInfoHeader buf with
  | none => st
  | some header =>
    handleParsed st header rinfo (parseLedgerRanges buf header) (parseObjectCounts buf header)
      (parseDebugCounters buf) now


/-! ### Test fixtures -/

/-- A concrete header for witnesses and counterexamples: all fields zero
except the given warning flags, node key and ledger-range count. -/
def mkTestHeader (flags : Nat) (key : List Nat) (rangeCount : Nat) : Header :=
  { magic := 0, version := 0, network_id := 0, server_state := 0, peer_count := 0,
    node_size := 0, cpu_cores := 0, ledger_range_count := rangeCount,
    warning_flags := flags, timestamp := 0, uptime := 0, io_latency_us := 0,
    validation_quorum := 0, fetch_pack_size := 0, proposer_count := 0,
    converge_time_ms := 0, load_factor := 0, load_base := 0, reserve_base := 0,
    reserve_inc := 0, ledger_seq := 0, ledger_hash := [], node_public_key := key,
    version_string := [], process_memory_pages := 0, system_memory_total := 0,
    system_memory_free := 0, system_memory_used := 0, system_disk_total := 0,
    system_disk_free := 0, system_disk_used := 0, io_wait_time := 0,
    load_avg_1min := 0, load_avg_5min := 0, load_avg_15min := 0,
    state_transitions := [0, 0, 0, 0, 0], state_durations := [0, 0, 0, 0, 0],
    initial_sync_us := 0,
    rates := { network_in := ⟨0, 0, 0, 0⟩, network_out := ⟨0, 0, 0, 0⟩,
               disk_read := ⟨0, 0, 0, 0⟩, disk_write := ⟨0, 0, 0, 0⟩ } }

def testRInfo : RInfo := { address := "127.0.0.1", port := 12345 }

/-! ### C4: ledger-range decoding -/

/-- **C4.** With `ledger_range_count = 3` and a buffer holding exactly
three 8-byte pairs after the 708-byte header area (length 732), decoding
returns exactly those three ranges in buffer order; with count 3 but only
one pair of trailing bytes (length 716), the overrun aborts the loop and
the result is the empty list, never a partial one. -/
theorem C4_ledger_ranges :
    (∀ (buf : List Nat) (header : Header), header.ledger_range_count = 3 →
      buf.length = 732 →
      parseLedgerRanges buf header =
        [{ start := u32 buf 708, stop := u32 buf 712 },
         { start := u32 buf 716, stop := u32 buf 720 },
         { start := u32 buf 724, stop := u32 buf 728 }]) ∧
    (∀ (buf : List Nat) (header : Header), header.ledger_range_count = 3 →
      buf.length = 716 →
      parseLedgerRanges buf header = []) := by
  constructor
  · intro buf header hc hlen
    simp [parseLedgerRanges, hc, ledgerRangesLoop, HEADER_SIZE, readUInt32LE, hlen]
  · intro buf header hc hlen
    simp [parseLedgerRanges, hc, ledgerRangesLoop, HEADER_SIZE, readUInt32LE, hlen]

set_option maxRecDepth 8000 in
/-- Witness for C4 at concrete buffers. -/
theorem C4_ledger_ranges_witness :
    parseLedgerRanges (List.replicate 732 0) (mkTestHeader 0 [] 3) =
      [{ start := 0, stop := 0 }, { start := 0, stop := 0 }, { start := 0, stop := 0 }] ∧
    parseLedgerRanges (List.replicate 716 0) (mkTestHeader 0 [] 3) = [] :=
  ⟨(C4_ledger_ranges.1 (List.replicate 732 0) (mkTestHeader 0 [] 3) rfl (by simp)).trans
      (by decide),
   C4_ledger_ranges.2 (List.replicate 716 0) (mkTestHeader 0 [] 3) rfl (by simp)⟩

/-! ### C7: warning bitmask decoding -/

/-- Reducing the flags modulo 16 leaves each of the four low-bit masks
unchanged. -/
theorem and_low_bit_mod16 (n m : Nat) (hm : m < 4) : n % 16 &&& 2 ^ m = n &&& 2 ^ m := by
  apply Nat.eq_of_testBit_eq
  intro i
  have hmod : (n % 16).testBit i = (decide (i < 4) && n.testBit i) := by
    have h16 := Nat.testBit_mod_two_pow n 4 i
    norm_num at h16
    exact h16
  rcases eq_or_ne m i with rfl | hne
  · simp [Nat.testBit_and, hmod, hm]
  · simp [Nat.testBit_and, Nat.testBit_two_pow_of_ne hne]

/-- **C7.** Flag value 8 yields exactly the NOT SYNCED warning; value 15
yields all four warnings in the fixed source order; and bits above bit 3
never influence the warning list (the flags may be reduced mod 16). -/
theorem C7_warning_bitmask :
    (∀ h : Header, getWarnings (some { h with warning_flags := 8 }) = ["NOT SYNCED"]) ∧
    (∀ h : Header, getWarnings (some { h with warning_flags := 15 }) =
      ["Amendment Blocked", "UNL Blocked", "Amendment Warned", "NOT SYNCED"]) ∧
    (∀ h : Header, getWarnings (some h) =
      getWarnings (some { h with warning_flags := h.warning_flags % 16 })) := by
  refine ⟨fun h => by
      simp +decide [getWarnings, AMENDMENT_BLOCKED, UNL_BLOCKED, AMENDMENT_WARNED, NOT_SYNCED],
    fun h => by
      simp +decide [getWarnings, AMENDMENT_BLOCKED, UNL_BLOCKED, AMENDMENT_WARNED, NOT_SYNCED],
    fun h => ?_⟩
  have e1 := and_low_bit_mod16 h.warning_flags 0 (by omega)
  have e2 := and_low_bit_mod16 h.warning_flags 1 (by omega)
  have e3 := and_low_bit_mod16 h.warning_flags 2 (by omega)
  have e4 := and_low_bit_mod16 h.warning_flags 3 (by omega)
  norm_num at e1 e2 e3 e4
  have e0 : h.warning_flags % 16 % 2 = h.warning_flags % 2 := by omega
  simp [getWarnings, AMENDMENT_BLOCKED, UNL_BLOCKED, AMENDMENT_WARNED, NOT_SYNCED,
    e0, e1, e2, e3, e4]

/-! ### C8: duration formatting -/

/-- A string of the shape `a ++ "." ++ b` is never the one-character
string 1. -/
theorem append_dot_ne_one (a b : String) : a ++ "." ++ b ≠ "1" := by
  intro hcontra
  have hd : (a ++ "." ++ b).data = ['1'] := by rw [hcontra]
  rw [String.data_append, String.data_append] at hd
  have hdot : (".".data : List Char) = ['.'] := rfl
  rw [hdot] at hd
  rcases ha : a.data with _ | ⟨c, cs⟩
  · rw [ha] at hd
    simp only [List.nil_append, List.cons_append] at hd
    injection hd with h1 h2
    exact absurd h1 (by decide)
  · rw [ha] at hd
    simp only [List.cons_append, List.nil_append] at hd
    injection hd with h1 h2
    simp at h2

/-- `toFixed(1)` output always contains a decimal point, so the source
comparison `value !== '1'` is always true. -/
theorem toFixed1_ne_one (num den : Nat) : toFixed1 num den ≠ "1" :=
  append_dot_ne_one _ _

/-- **C8 (counterexample).** The claim demands the singular once the value
renders as 1.0, but the code emits the plural: one second formats as
`1.0 seconds`. -/
theorem C8_singular_counterexample :
    formatDuration 1000000 = some "1.0 seconds" ∧ "1.0 seconds" ≠ "1.0 second" := by
  constructor
  · decide
  · decide

/-- **C8 (amended).** For every positive microsecond count the code picks
the largest unit whose divisor does not exceed the value and renders one
decimal place, but it always appends the plural `s`: the singular branch
compares the rendered value with the string `1`, which a one-decimal
rendering never equals. -/
theorem C8_duration_format (microseconds : Nat) (hpos : 0 < microseconds) :
    ∃ du ∈ durationUnits, du.1 ≤ microseconds ∧
      (∀ du' ∈ durationUnits, du'.1 ≤ microseconds → du'.1 ≤ du.1) ∧
      formatDuration microseconds =
        some (toFixed1 microseconds du.1 ++ " " ++ du.2 ++ "s") := by
  have hne : microseconds ≠ 0 := by omega
  rcases le_or_lt 31536000000000 microseconds with h1 | h1
  · refine ⟨(31536000000000, "year"), by simp [durationUnits], h1, ?_, ?_⟩
    · intro du' hmem hle
      simp [durationUnits] at hmem
      rcases hmem with rfl|rfl|rfl|rfl|rfl|rfl|rfl|rfl <;> simp
    · simp [formatDuration, formatDurationLoop, durationUnits, hne, h1, toFixed1_ne_one]
  rcases le_or_lt 2592000000000 microseconds with h2 | h2
  · refine ⟨(2592000000000, "month"), by simp [durationUnits], h2, ?_, ?_⟩
    · intro du' hmem hle
      simp [durationUnits] at hmem
      rcases hmem with rfl|rfl|rfl|rfl|rfl|rfl|rfl|rfl <;> simp
      omega
    · have hn1 : ¬ 31536000000000 ≤ microseconds := by omega
      simp [formatDuration, formatDurationLoop, durationUnits, hne, hn1, h2, toFixed1_ne_one]
  rcases le_or_lt 86400000000 microseconds with h3 | h3
  · refine ⟨(86400000000, "day"), by simp [durationUnits], h3, ?_, ?_⟩
    · intro du' hmem hle
      simp [durationUnits] at hmem
      rcases hmem with rfl|rfl|rfl|rfl|rfl|rfl|rfl|rfl <;> simp <;> omega
    · have hn1 : ¬ 31536000000000 ≤ microseconds := by omega
      have hn2 : ¬ 2592000000000 ≤ microseconds := by omega
      simp [formatDuration, formatDurationLoop, durationUnits, hne, hn1, hn2, h3, toFixed1_ne_one]
  rcases le_or_lt 3600000000 microseconds with h4 | h4
  · refine ⟨(3600000000, "hour"), by simp [durationUnits], h4, ?_, ?_⟩
    · intro du' hmem hle
      simp [durationUnits] at hmem
      rcases hmem with rfl|rfl|rfl|rfl|rfl|rfl|rfl|rfl <;> simp <;> omega
    · have hn1 : ¬ 31536000000000 ≤ microseconds := by omega
      have hn2 : ¬ 2592000000000 ≤ microseconds := by omega
      have hn3 : ¬ 86400000000 ≤ microseconds := by omega
      simp [formatDuration, formatDurationLoop, durationUnits, hne, hn1, hn2, hn3, h4,
        toFixed1_ne_one]
  rcases le_or_lt 60000000 microseconds with h5 | h5
  · refine ⟨(60000000, "minute"), by simp [durationUnits], h5, ?_, ?_⟩
    · intro du' hmem hle
      simp [durationUnits] at hmem
      rcases hmem with rfl|rfl|rfl|rfl|rfl|rfl|rfl|rfl <;> simp <;> omega
    · have hn1 : ¬ 31536000000000 ≤ microseconds := by omega
      have hn2 : ¬ 2592000000000 ≤ microseconds := by omega
      have hn3 : ¬ 86400000000 ≤ microseconds := by omega
      have hn4 : ¬ 3600000000 ≤ microseconds := by omega
      simp [formatDuration, formatDurationLoop, durationUnits, hne, hn1, hn2, hn3, hn4, h5,
        toFixed1_ne_one]
  rcases le_or_lt 1000000 microseconds with h6 | h6
  · refine ⟨(1000000, "second"), by simp [durationUnits], h6, ?_, ?_⟩
    · intro du' hmem hle
      simp [durationUnits] at hmem
      rcases hmem with rfl|rfl|rfl|rfl|rfl|rfl|rfl|rfl <;> simp <;> omega
    · have hn1 : ¬ 31536000000000 ≤ microseconds := by omega
      have hn2 : ¬ 2592000000000 ≤ microseconds := by omega
      have hn3 : ¬ 86400000000 ≤ microseconds := by omega
      have hn4 : ¬ 3600000000 ≤ microseconds := by omega
      have hn5 : ¬ 60000000 ≤ microseconds := by omega
      simp [formatDuration, formatDurationLoop, durationUnits, hne, hn1, hn2, hn3, hn4, hn5, h6,
        toFixed1_ne_one]
  rcases le_or_lt 1000 microseconds with h7 | h7
  · refine ⟨(1000, "ms"), by simp [durationUnits], h7, ?_, ?_⟩
    · intro du' hmem hle
      simp [durationUnits] at hmem
      rcases hmem with rfl|rfl|rfl|rfl|rfl|rfl|rfl|rfl <;> simp <;> omega
    · have hn1 : ¬ 31536000000000 ≤ microseconds := by omega
      have hn2 : ¬ 2592000000000 ≤ microseconds := by omega
      have hn3 : ¬ 86400000000 ≤ microseconds := by omega
      have hn4 : ¬ 3600000000 ≤ microseconds := by omega
      have hn5 : ¬ 60000000 ≤ microseconds := by omega
      have hn6 : ¬ 1000000 ≤ microseconds := by omega
      simp [formatDuration, formatDurationLoop, durationUnits, hne, hn1, hn2, hn3, hn4, hn5, hn6,
        h7, toFixed1_ne_one]
  · refine ⟨(1, "μs"), by simp [durationUnits], by omega, ?_, ?_⟩
    · intro du' hmem hle
      simp [durationUnits] at hmem
      rcases hmem with rfl|rfl|rfl|rfl|rfl|rfl|rfl|rfl <;> simp <;> omega
    · have hn1 : ¬ 31536000000000 ≤ microseconds := by omega
      have hn2 : ¬ 2592000000000 ≤ microseconds := by omega
      have hn3 : ¬ 86400000000 ≤ microseconds := by omega
      have hn4 : ¬ 3600000000 ≤ microseconds := by omega
      have hn5 : ¬ 60000000 ≤ microseconds := by omega
      have hn6 : ¬ 1000000 ≤ microseconds := by omega
      have hn7 : ¬ 1000 ≤ microseconds := by omega
      simp [formatDuration, formatDurationLoop, durationUnits, hne, hn1, hn2, hn3, hn4, hn5, hn6,
        hn7, show 1 ≤ microseconds by omega, toFixed1_ne_one]

/-- Witness for the amended C8 at 90 seconds: the unit is the minute and
the plural is used. -/
theorem C8_duration_format_witness :
    0 < 90000000 ∧
      ∃ du ∈ durationUnits, du.1 ≤ 90000000 ∧
        (∀ du' ∈ durationUnits, du'.1 ≤ 90000000 → du'.1 ≤ du.1) ∧
        formatDuration 90000000 = some (toFixed1 90000000 du.1 ++ " " ++ du.2 ++ "s") :=
  ⟨by decide, C8_duration_format 90000000 (by decide)⟩


/-! ### C9: fixed-header decode totality -/

/-- **C9.** Every read `parseServerInfoHeader` performs lies at a fixed
offset whose end does not exceed byte 544, so on any buffer of at least
544 bytes it terminates without throwing and every fixed-header field
(magic through the four rate blocks) is populated from its offset. -/
theorem C9_parse_total (buf : List Nat) (hlen : 544 ≤ buf.length) :
    parseServerInfoHeader buf = some (mkHeader buf) :=
  parse_complete buf hlen

/-- Witness for C9 on a concrete 544-byte buffer. -/
theorem C9_parse_total_witness :
    parseServerInfoHeader (List.replicate 544 0) = some (mkHeader (List.replicate 544 0)) :=
  C9_parse_total (List.replicate 544 0) (by rw [List.length_replicate])

/-! ### C1: short buffers -/

/-- **C1 (counterexample).** On the empty buffer the decode *raises* (the
`none` models the RangeError of the very first read): no partial result
with empty variable sections is returned, contrary to the claim; the
handler swallows the exception and drops the packet. -/
theorem C1_short_buffer_counterexample :
    parseServerInfoHeader [] = none ∧
    processMessage initState [] testRInfo 1000 = initState := by
  constructor
  · rfl
  · rfl

/-- **C1 (amended).** For every buffer shorter than the 544-byte fixed
read span, `parseServerInfoHeader` throws (modelled as `none`) rather
than returning a partial header; the message handler catches the throw
and drops the packet with all monitor state unchanged; the variable
section parsers themselves (which catch internally) do return empty
collections on such buffers. -/
theorem C1_short_buffer (buf : List Nat) (hlt : buf.length < 544) :
    parseServerInfoHeader buf = none ∧
    (∀ (st : MonState) (rinfo : RInfo) (now : Nat), processMessage st buf rinfo now = st) ∧
    (∀ header : Header, parseLedgerRanges buf header = []) ∧
    (∀ header : Header, parseObjectCounts buf header = []) := by
  have hnone := parse_short buf hlt
  refine ⟨hnone, fun st rinfo now => ?_, fun header => ?_, fun header => ?_⟩
  · simp [processMessage, hnone]
  · cases hc : header.ledger_range_count with
    | zero => simp [parseLedgerRanges, hc, ledgerRangesLoop]
    | succ k =>
      have hno : ¬ 712 ≤ buf.length := by omega
      simp [parseLedgerRanges, hc, ledgerRangesLoop, readUInt32LE, HEADER_SIZE, hno]
  · have h0 : buf.length - (708 + header.ledger_range_count * 8) = 0 := by omega
    simp [parseObjectCounts, HEADER_SIZE, h0, objectCountsLoop]

/-- Witness for the amended C1 on a concrete 100-byte buffer. -/
theorem C1_short_buffer_witness :
    parseServerInfoHeader (List.replicate 100 7) = none ∧
    processMessage initState (List.replicate 100 7) testRInfo 5 = initState ∧
    parseLedgerRanges (List.replicate 100 7) (mkTestHeader 0 [] 1) = [] ∧
    parseObjectCounts (List.replicate 100 7) (mkTestHeader 0 [] 1) = [] :=
  have h := C1_short_buffer (List.replicate 100 7) (by simp)
  ⟨h.1, h.2.1 initState testRInfo 5, h.2.2.1 (mkTestHeader 0 [] 1),
    h.2.2.2 (mkTestHeader 0 [] 1)⟩

/-! ### C2: no magic/version check -/

/-- **C2 (amended).** The message handler performs no magic or version
check at all: any buffer long enough to decode is processed identically
whatever those two fields hold, and from an empty registry the sender is
registered. -/
theorem C2_no_magic_check (buf : List Nat) (rinfo : RInfo) (now : Nat)
    (hlen : 544 ≤ buf.length) :
    (processMessage initState buf rinfo now).servers.length = 1 := by
  simp only [processMessage, parse_complete buf hlen]
  simp [handleParsed, initState, findCard, getNextSlot, setCard]

/-- Witness for the amended C2. -/
theorem C2_no_magic_check_witness :
    (processMessage initState (List.replicate 600 3) testRInfo 77).servers.length = 1 :=
  C2_no_magic_check (List.replicate 600 3) testRInfo 77
    (by rw [List.length_replicate]; omega)

set_option maxRecDepth 4000 in
/-- **C2 (counterexample).** The all-zero 544-byte packet has magic 0 and
version 0 — neither `SERVER_INFO_MAGIC` nor `SERVER_INFO_VERSION` — yet
the handler registers its sender instead of rejecting it. -/
theorem C2_no_magic_check_counterexample :
    (parseServerInfoHeader (List.replicate 544 0)).map Header.magic = some 0 ∧
    (0 : Nat) ≠ SERVER_INFO_MAGIC ∧
    (parseServerInfoHeader (List.replicate 544 0)).map Header.version = some 0 ∧
    (0 : Nat) ≠ SERVER_INFO_VERSION ∧
    (processMessage initState (List.replicate 544 0) testRInfo 1000).servers.length = 1 := by
  have hp := parse_complete (List.replicate 544 0) (by rw [List.length_replicate])
  refine ⟨?_, by decide, ?_, by decide, ?_⟩
  · rw [hp]
    simp [mkHeader]
    decide
  · rw [hp]
    simp [mkHeader]
    decide
  · simp only [processMessage, hp]
    simp [handleParsed, initState, findCard, getNextSlot, setCard]


/-! ### Registry lemmas (for C5 and C10) -/

/-- `findCard` misses exactly the keys absent from the map. -/
theorem findCard_eq_none_iff (s : List (List Nat × Card)) (key : List Nat) :
    findCard s key = none ↔ key ∉ s.map Prod.fst := by
  induction s with
  | nil => simp [findCard]
  | cons p rest ih =>
    obtain ⟨k, c⟩ := p
    by_cases hk : k = key
    · subst hk
      simp [findCard]
    · simp [findCard, hk, ih, Ne.symm hk]

/-- Finding a freshly appended key. -/
theorem findCard_append_self (s : List (List Nat × Card)) (key : List Nat) (c : Card)
    (hnot : key ∉ s.map Prod.fst) : findCard (s ++ [(key, c)]) key = some c := by
  induction s with
  | nil => simp [findCard]
  | cons p rest ih =>
    obtain ⟨k, c0⟩ := p
    simp only [List.map_cons, List.mem_cons] at hnot
    push_neg at hnot
    simpa [findCard, Ne.symm hnot.1] using ih hnot.2

/-- Replacing the card of a present key keeps the key list. -/
theorem setCard_map_fst (s : List (List Nat × Card)) (key : List Nat) (c' : Card)
    (hmem : key ∈ s.map Prod.fst) :
    (setCard s key c').map Prod.fst = s.map Prod.fst := by
  induction s with
  | nil => simp at hmem
  | cons p rest ih =>
    obtain ⟨k, c0⟩ := p
    by_cases hk : k = key
    · subst hk
      simp [setCard]
    · simp only [List.map_cons, List.mem_cons] at hmem
      rcases hmem with heq | hmem
      · exact absurd heq.symm hk
      · simp [setCard, hk, ih hmem]

/-- Replacing the card of a present key keeps the registry size. -/
theorem setCard_length (s : List (List Nat × Card)) (key : List Nat) (c' : Card)
    (hmem : key ∈ s.map Prod.fst) :
    (setCard s key c').length = s.length := by
  induction s with
  | nil => simp at hmem
  | cons p rest ih =>
    obtain ⟨k, c0⟩ := p
    by_cases hk : k = key
    · subst hk
      simp [setCard]
    · simp only [List.map_cons, List.mem_cons] at hmem
      rcases hmem with heq | hmem
      · exact absurd heq.symm hk
      · simp [setCard, hk, ih hmem]

/-- Replacing the card of a present key with one of the same slot keeps
the slot assignment. -/
theorem setCard_map_slot (s : List (List Nat × Card)) (key : List Nat) (c c' : Card)
    (hfind : findCard s key = some c) (hslot : c'.slot = c.slot) :
    (setCard s key c').map (fun p => p.2.slot) = s.map (fun p => p.2.slot) := by
  induction s with
  | nil => simp [findCard] at hfind
  | cons p rest ih =>
    obtain ⟨k, c0⟩ := p
    by_cases hk : k = key
    · subst hk
      simp [findCard] at hfind
      subst hfind
      simp [setCard, hslot]
    · simp only [findCard, if_neg hk] at hfind
      simp [setCard, hk, ih hfind]

/-- Replacing the card of a present key with one of the same slot keeps
the whole identity-to-slot assignment. -/
theorem setCard_map_pairSlot (s : List (List Nat × Card)) (key : List Nat) (c c' : Card)
    (hfind : findCard s key = some c) (hslot : c'.slot = c.slot) :
    (setCard s key c').map (fun p => (p.1, p.2.slot))
      = s.map (fun p => (p.1, p.2.slot)) := by
  induction s with
  | nil => simp [findCard] at hfind
  | cons p rest ih =>
    obtain ⟨k, c0⟩ := p
    by_cases hk : k = key
    · subst hk
      simp [findCard] at hfind
      subst hfind
      simp [setCard, hslot]
    · simp only [findCard, if_neg hk] at hfind
      simp [setCard, hk, ih hfind]

/-- `updateDisplay` never touches the slot of a card. -/
theorem updateDisplay_slot (c : Card) (now : Nat) : (updateDisplay c now).1.slot = c.slot := by
  unfold updateDisplay
  split
  · dsimp only
    repeat' split
    all_goals rfl
  · rfl

/-- `ServerCard.update` never touches the slot of a card. -/
theorem cardUpdate_slot (c : Card) (h : Header) (r : RInfo) (rg : List LedgerRange)
    (oc : List ObjCount) (dc : Option DebugCounters) (now : Nat) :
    (cardUpdate c h r rg oc dc now).1.slot = c.slot := by
  unfold cardUpdate
  simp [updateDisplay_slot]

/-- The handler on a fresh key: with a free slot the identity is appended
with slot `st.nextSlot` and the counter advances; with all 20 slots taken
the state is returned unchanged. -/
theorem handleParsed_fresh (st : MonState) (h : Header) (r : RInfo) (rg : List LedgerRange)
    (oc : List ObjCount) (dc : Option DebugCounters) (now : Nat)
    (hnot : h.node_public_key ∉ st.servers.map Prod.fst) :
    (st.nextSlot < 20 →
      (handleParsed st h r rg oc dc now).servers.map Prod.fst
          = st.servers.map Prod.fst ++ [h.node_public_key] ∧
      (handleParsed st h r rg oc dc now).servers.map (fun p => p.2.slot)
          = st.servers.map (fun p => p.2.slot) ++ [st.nextSlot] ∧
      (handleParsed st h r rg oc dc now).nextSlot = st.nextSlot + 1 ∧
      (handleParsed st h r rg oc dc now).servers.length = st.servers.length + 1) ∧
    (20 ≤ st.nextSlot → handleParsed st h r rg oc dc now = st) := by
  have hfind : findCard st.servers h.node_public_key = none :=
    (findCard_eq_none_iff _ _).mpr hnot
  constructor
  · intro hlt
    have hfound : findCard (st.servers ++ [(h.node_public_key, newCard st.nextSlot)])
        h.node_public_key = some (newCard st.nextSlot) :=
      findCard_append_self _ _ _ hnot
    have hmem : h.node_public_key
        ∈ (st.servers ++ [(h.node_public_key, newCard st.nextSlot)]).map Prod.fst := by
      simp
    have heq : handleParsed st h r rg oc dc now =
        { servers := setCard (st.servers ++ [(h.node_public_key, newCard st.nextSlot)])
            h.node_public_key
            (cardUpdate (newCard st.nextSlot) h r rg oc dc now).1,
          nextSlot := st.nextSlot + 1,
          alerts := (cardUpdate (newCard st.nextSlot) h r rg oc dc now).2.foldl
            addAlert st.alerts } := by
      unfold handleParsed
      simp [hfind, getNextSlot, Nat.not_le.mpr hlt, hfound]
    have hslot : (cardUpdate (newCard st.nextSlot) h r rg oc dc now).1.slot
        = (newCard st.nextSlot).slot :=
      cardUpdate_slot _ _ _ _ _ _ _
    refine ⟨?_, ?_, ?_, ?_⟩
    · rw [heq]
      show (setCard _ _ _).map Prod.fst = _
      rw [setCard_map_fst _ _ _ hmem]
      simp
    · rw [heq]
      show (setCard _ _ _).map (fun p => p.2.slot) = _
      rw [setCard_map_slot _ _ _ _ hfound hslot]
      simp [newCard]
    · rw [heq]
    · rw [heq]
      show (setCard _ _ _).length = _
      rw [setCard_length _ _ _ hmem]
      simp
  · intro hge
    unfold handleParsed
    simp [hfind, getNextSlot, hge]

/-- **C10.** A packet whose node key is already tracked never changes the
registry size, never consumes a slot and never alters any identity-to-slot
assignment; conversely, the slot counter only ever moves for a
previously-unseen identity. -/
theorem C10_tracked_key_frame (st : MonState) (h : Header) (r : RInfo)
    (rg : List LedgerRange) (oc : List ObjCount) (dc : Option DebugCounters) (now : Nat) :
    (h.node_public_key ∈ st.servers.map Prod.fst →
      (handleParsed st h r rg oc dc now).servers.map (fun p => (p.1, p.2.slot))
          = st.servers.map (fun p => (p.1, p.2.slot)) ∧
      (handleParsed st h r rg oc dc now).servers.length = st.servers.length ∧
      (handleParsed st h r rg oc dc now).nextSlot = st.nextSlot) ∧
    ((handleParsed st h r rg oc dc now).nextSlot ≠ st.nextSlot →
      h.node_public_key ∉ st.servers.map Prod.fst) := by
  have hmain : h.node_public_key ∈ st.servers.map Prod.fst →
      (handleParsed st h r rg oc dc now).servers.map (fun p => (p.1, p.2.slot))
          = st.servers.map (fun p => (p.1, p.2.slot)) ∧
      (handleParsed st h r rg oc dc now).servers.length = st.servers.length ∧
      (handleParsed st h r rg oc dc now).nextSlot = st.nextSlot := by
    intro hmem
    have hne : findCard st.servers h.node_public_key ≠ none := by
      rw [Ne, findCard_eq_none_iff]
      simpa using hmem
    obtain ⟨c, hfind⟩ := Option.ne_none_iff_exists'.mp hne
    have heq : handleParsed st h r rg oc dc now =
        { st with
          servers := setCard st.servers h.node_public_key
            (cardUpdate c h r rg oc dc now).1,
          alerts := (cardUpdate c h r rg oc dc now).2.foldl addAlert st.alerts } := by
      unfold handleParsed
      simp [hfind]
    refine ⟨?_, ?_, ?_⟩
    · rw [heq]
      show (setCard _ _ _).map _ = _
      exact setCard_map_pairSlot _ _ _ _ hfind (cardUpdate_slot _ _ _ _ _ _ _)
    · rw [heq]
      show (setCard _ _ _).length = _
      exact setCard_length _ _ _ hmem
    · rw [heq]
  refine ⟨hmain, fun hne => ?_⟩
  intro hmem
  exact hne (hmain hmem).2.2

/-- Witness for C10 on a one-entry registry receiving a packet for the
tracked key. -/
theorem C10_tracked_key_frame_witness :
    (handleParsed { servers := [([7], newCard 0)], nextSlot := 1, alerts := [] }
        (mkTestHeader 0 [7] 0) testRInfo [] [] none 50).servers.map
        (fun p => (p.1, p.2.slot)) = [([7], 0)] ∧
    (handleParsed { servers := [([7], newCard 0)], nextSlot := 1, alerts := [] }
        (mkTestHeader 0 [7] 0) testRInfo [] [] none 50).servers.length = 1 ∧
    (handleParsed { servers := [([7], newCard 0)], nextSlot := 1, alerts := [] }
        (mkTestHeader 0 [7] 0) testRInfo [] [] none 50).nextSlot = 1 :=
  have h := (C10_tracked_key_frame { servers := [([7], newCard 0)], nextSlot := 1, alerts := [] }
    (mkTestHeader 0 [7] 0) testRInfo [] [] none 50).1 (by simp [mkTestHeader])
  ⟨h.1.trans (by simp [newCard]), h.2.1.trans (by simp), h.2.2.trans (by simp)⟩

/-- Repeated invocation of the message handler on already-parsed headers,
starting from the empty registry (the test harness for C5). -/
def runHeaders (hs : List Header) (r : RInfo) (now : Nat) : MonState :=
  hs.foldl (fun st h => handleParsed st h r [] [] none now) initState

/-- Registry fold invariant: distinct fresh keys fill slots in arrival
order until 20 are taken, after which arrivals are dropped. -/
theorem runFold_invariant (hs : List Header) (st : MonState) (r : RInfo) (now : Nat)
    (hnodup : (hs.map Header.node_public_key).Nodup)
    (hdisj : ∀ h ∈ hs, h.node_public_key ∉ st.servers.map Prod.fst)
    (hslots : st.servers.map (fun p => p.2.slot) = List.range st.servers.length)
    (hnext : st.nextSlot = st.servers.length)
    (hcap : st.servers.length ≤ 20) :
    (hs.foldl (fun s h => handleParsed s h r [] [] none now) st).servers.map Prod.fst
        = st.servers.map Prod.fst
          ++ (hs.map Header.node_public_key).take (20 - st.servers.length) ∧
    (hs.foldl (fun s h => handleParsed s h r [] [] none now) st).servers.map
        (fun p => p.2.slot)
        = List.range
            ((hs.foldl (fun s h => handleParsed s h r [] [] none now) st).servers.length) ∧
    (hs.foldl (fun s h => handleParsed s h r [] [] none now) st).nextSlot
        = (hs.foldl (fun s h => handleParsed s h r [] [] none now) st).servers.length ∧
    (hs.foldl (fun s h => handleParsed s h r [] [] none now) st).servers.length
        = min (st.servers.length + hs.length) 20 := by
  induction hs generalizing st with
  | nil =>
    simp only [List.foldl_nil, List.map_nil, List.take_nil, List.append_nil, List.length_nil]
    exact ⟨by simp, hslots, hnext, by omega⟩
  | cons h t ih =>
    simp only [List.foldl_cons, List.map_cons, List.nodup_cons] at hnodup ⊢
    have hd0 : h.node_public_key ∉ st.servers.map Prod.fst := hdisj h (by simp)
    by_cases hlt : st.servers.length < 20
    · obtain ⟨sk, ss, sn, sl⟩ :=
        (handleParsed_fresh st h r [] [] none now hd0).1 (by omega)
      have ih' := ih (handleParsed st h r [] [] none now)
        hnodup.2
        (fun h' hh' => by
          rw [sk]
          simp only [List.mem_append, List.mem_singleton]
          push_neg
          refine ⟨hdisj h' (List.mem_cons_of_mem _ hh'), fun e => ?_⟩
          exact hnodup.1 (e ▸ List.mem_map_of_mem Header.node_public_key hh'))
        (by rw [ss, hslots, hnext, sl, List.range_succ])
        (by rw [sn, hnext, sl])
        (by omega)
      obtain ⟨ik, isl, inx, iln⟩ := ih'
      refine ⟨?_, isl, inx, ?_⟩
      · rw [ik, sk, sl]
        have h20 : 20 - st.servers.length = (20 - (st.servers.length + 1)) + 1 := by omega
        rw [h20, List.take_succ_cons, List.append_assoc]
        rfl
      · rw [iln, sl]
        simp only [List.length_cons]
        omega
    · have hst : handleParsed st h r [] [] none now = st :=
        (handleParsed_fresh st h r [] [] none now hd0).2 (by omega)
      rw [hst]
      have ih' := ih st hnodup.2 (fun h' hh' => hdisj h' (List.mem_cons_of_mem _ hh'))
        hslots hnext hcap
      obtain ⟨ik, isl, inx, iln⟩ := ih'
      have h200 : st.servers.length = 20 := by omega
      refine ⟨?_, isl, inx, ?_⟩
      · rw [ik, h200]
        simp
      · rw [iln]
        simp only [List.length_cons]
        omega

/-- **C5.** Processing packets bearing 21 distinct node identities tracks
exactly 20 nodes; the key of any packet past the twentieth distinct
identity is absent from the registry; and the slot indices are exactly
0..19, assigned to the first-seen identities in order — monotonically
increasing and never reused. -/
theorem C5_registry_capacity (hs : List Header) (r : RInfo) (now : Nat)
    (hlen : hs.length = 21) (hnodup : (hs.map Header.node_public_key).Nodup) :
    (runHeaders hs r now).servers.length = 20 ∧
    (runHeaders hs r now).servers.map Prod.fst
        = (hs.map Header.node_public_key).take 20 ∧
    (∀ h ∈ hs.drop 20, h.node_public_key ∉ (runHeaders hs r now).servers.map Prod.fst) ∧
    (runHeaders hs r now).servers.map (fun p => p.2.slot) = List.range 20 := by
  unfold runHeaders
  obtain ⟨ik, isl, inx, iln⟩ := runFold_invariant hs initState r now hnodup
    (by simp [initState]) (by simp [initState]) (by simp [initState]) (by simp [initState])
  have hlen20 :
      (hs.foldl (fun s h => handleParsed s h r [] [] none now) initState).servers.length
        = 20 := by
    rw [iln, hlen]
    simp [initState]
  have hkeys :
      (hs.foldl (fun s h => handleParsed s h r [] [] none now) initState).servers.map
        Prod.fst = (hs.map Header.node_public_key).take 20 := by
    rw [ik]
    simp [initState]
  refine ⟨hlen20, hkeys, ?_, ?_⟩
  · intro h hh
    rw [hkeys]
    intro hmem
    have hdrop : h.node_public_key ∈ (hs.map Header.node_public_key).drop 20 := by
      rw [← List.map_drop]
      exact List.mem_map_of_mem Header.node_public_key hh
    exact List.disjoint_take_drop hnodup (le_refl 20) hmem hdrop
  · rw [isl, hlen20]

/-- Witness for C5: 21 headers with distinct one-byte keys. -/
theorem C5_registry_capacity_witness :
    ((List.range 21).map (fun i => mkTestHeader 0 [i] 0)).length = 21 ∧
    ((((List.range 21).map (fun i => mkTestHeader 0 [i] 0)).map
        Header.node_public_key)).Nodup ∧
    (runHeaders ((List.range 21).map (fun i => mkTestHeader 0 [i] 0))
        testRInfo 9).servers.length = 20 :=
  ⟨by simp, by decide,
    (C5_registry_capacity ((List.range 21).map (fun i => mkTestHeader 0 [i] 0))
      testRInfo 9 (by simp) (by decide)).1⟩

/-! ### C3: new-warning alerts on packet arrival -/

/-- **C3 (counterexample).** Previous warnings = \{Amendment Blocked\}
(flags 1), new warnings = \{Amendment Blocked, UNL Blocked\} (flags 3): a
strict superset whose only newly-appeared kind is UNL Blocked, yet the
update path re-announces Amendment Blocked as well, emitting both alerts.
Moreover for new flags 6 the new set \{UNL Blocked, Amendment Warned\} is
*not* a superset of the old one, yet alerts are still emitted. -/
theorem C3_new_warning_alerts_counterexample :
    getWarnings (some (mkTestHeader 1 [] 0)) = ["Amendment Blocked"] ∧
    getWarnings (some (mkTestHeader 3 [] 0)) = ["Amendment Blocked", "UNL Blocked"] ∧
    updateNewWarningAlerts (some (mkTestHeader 1 [] 0)) (mkTestHeader 3 [] 0)
      = ["Amendment Blocked", "UNL Blocked"] ∧
    updateNewWarningAlerts (some (mkTestHeader 1 [] 0)) (mkTestHeader 3 [] 0)
      ≠ ["UNL Blocked"] ∧
    getWarnings (some (mkTestHeader 6 [] 0)) = ["UNL Blocked", "Amendment Warned"] ∧
    updateNewWarningAlerts (some (mkTestHeader 1 [] 0)) (mkTestHeader 6 [] 0)
      = ["UNL Blocked", "Amendment Warned"] := by
  refine ⟨by decide, by decide, by decide, by decide, by decide, by decide⟩

/-- **C3 (amended).** On a non-first update, the packet-arrival alert path
fires iff the warning count strictly exceeds a threshold that is 1 when
the previous snapshot had any warning and 0 otherwise (the JS `>` coerces
the boolean `hadWarnings`); when it fires, one alert is emitted for
*every* current warning — newly appeared or not — never a diff. -/
theorem C3_new_warning_alerts (oldH newH : Header) :
    updateNewWarningAlerts (some oldH) newH =
      if (getWarnings (some oldH) = [] ∧ getWarnings (some newH) ≠ [])
        ∨ (getWarnings (some oldH) ≠ [] ∧ 2 ≤ (getWarnings (some newH)).length)
      then getWarnings (some newH) else [] := by
  by_cases hold : getWarnings (some oldH) = []
  · rcases hcur : getWarnings (some newH) with _ | ⟨w, ws⟩ <;>
      simp [updateNewWarningAlerts, hold, hcur]
  · have hpos : 0 < (getWarnings (some oldH)).length := List.length_pos.mpr hold
    by_cases h2 : 2 ≤ (getWarnings (some newH)).length <;>
      simp [updateNewWarningAlerts, hold, hpos, h2, Nat.lt_iff_add_one_le]

/-! ### C6: AWOL alert throttling -/

/-- **C6.** Two periodic ticks that both find a node AWOL and lie within
five minutes of each other append exactly one AWOL alert: the first tick
alerts and stamps `lastAwolAlert`, the second still classifies the node
AWOL but stays silent. -/
theorem C6_awol_throttle (c : Card) (h : Header) (r : RInfo) (t1 t2 : Nat)
    (hheader : c.header = some h) (hrinfo : c.rinfo = some r)
    (hawol : SERVER_TIMEOUT < t1 - c.lastUpdate)
    (hfresh : c.lastAwolAlert = none)
    (h12 : t1 ≤ t2) (hwin : t2 - t1 ≤ 300000) (hpos : 0 < t1) :
    (updateDisplay c t1).2 = ["Server is AWOL"] ∧
    (updateDisplay c t1).1.isAwol = true ∧
    (updateDisplay (updateDisplay c t1).1 t2).1.isAwol = true ∧
    (updateDisplay (updateDisplay c t1).1 t2).2 = [] := by
  have ha1 : 2000 < t1 - c.lastUpdate := by
    simpa [SERVER_TIMEOUT] using hawol
  have e1 : updateDisplay c t1 =
      ({ c with isAwol := true, lastAwolAlert := some t1 }, ["Server is AWOL"]) := by
    unfold updateDisplay
    simp [hheader, hrinfo, SERVER_TIMEOUT, ha1, hfresh, jsFalsy]
  have hne0 : t1 ≠ 0 := by omega
  have ha2 : 2000 < t2 - c.lastUpdate := by omega
  have hnowin : ¬ 300000 < t2 - t1 := by omega
  refine ⟨by rw [e1], by rw [e1], ?_, ?_⟩
  · rw [e1]
    unfold updateDisplay
    simp [hheader, hrinfo, SERVER_TIMEOUT, ha2, hne0, hnowin, jsFalsy]
  · rw [e1]
    unfold updateDisplay
    simp [hheader, hrinfo, SERVER_TIMEOUT, ha2, hne0, hnowin, jsFalsy]

/-- A concrete card fixture: a node with a stored snapshot last heard from
at time 0, never yet alerted as AWOL. -/
def awolTestCard : Card :=
  { slot := 0, header := some (mkTestHeader 0 [] 0), rinfo := some testRInfo, ranges := [],
    objectCounts := [], debugCounters := none, lastUpdate := 0, lastAwolAlert := none,
    lastWarningTime := none, isAwol := false }

/-- Witness for C6: ticks at 3000 ms and 10000 ms. -/
theorem C6_awol_throttle_witness :
    (updateDisplay awolTestCard 3000).2 = ["Server is AWOL"] ∧
    (updateDisplay awolTestCard 3000).1.isAwol = true ∧
    (updateDisplay (updateDisplay awolTestCard 3000).1 10000).1.isAwol = true ∧
    (updateDisplay (updateDisplay awolTestCard 3000).1 10000).2 = [] :=
  C6_awol_throttle awolTestCard (mkTestHeader 0 [] 0) testRInfo 3000 10000 rfl rfl
    (by decide) rfl (by decide) (by decide) (by decide)

end Xdgm
